import Mathlib

/-!
Shallow embedding of the Kartz backend chat server.

Sources embedded:
- server.js: two concatenated revisions of the same server. Both define the
  GET /api/chat-history/:uid route and the socket send_message handler. The
  first revision (lines 93-245) emits a fallback reply in its catch block and
  defaults the sender display name to "Client"; the second revision
  (lines 313-402) has an empty catch block and passes the sender name through
  unchanged. We embed both handler revisions.
- models/Message.js: the Message schema (senderType enum user/ai/human_agent,
  required content and senderName, default-null senderUid, timestamps) and the
  Chat schema (unique userId, required userEmail, status enum, lastMessageAt).

Modelling conventions: Mongo ObjectIds become Nat surrogates drawn from a
store counter; store-assigned createdAt timestamps and Date.now come from a
single logical clock that advances on every committed write; a JS value that
is undefined or the empty string (both falsy) is modelled as the empty
string, and a missing event payload is modelled as Option.none, on which the
handlers crash before any effect, as the JS property access does. External
calls that can fail for environmental reasons (store connectivity, the
generation service) are driven by an explicit environment of outcomes.
Mongoose validation (required nonempty strings, enums, the unique index on
Chat.userId) is part of the store operations themselves.
-/

namespace KartzBackend

/-- Inbound send_message payload: uid, email, content, senderName. A field
that the client omitted (undefined, falsy in JS) is encoded as the empty
string, which the validation treats identically. -/
structure Payload where
  uid : String
  email : String
  content : String
  senderName : String
  deriving DecidableEq, Repr

/-- A Chat document (ChatSchema in models): unique userId, userEmail,
status, lastMessageAt, plus the store-assigned id and createdAt. -/
structure Chat where
  cid : Nat
  userId : String
  userEmail : String
  status : String
  lastMessageAt : Nat
  createdAt : Nat
  deriving DecidableEq, Repr

/-- A Message document (MessageSchema in models): chatId reference, content,
senderType, senderName, senderUid (null unless the sender is a user), plus
store-assigned id and createdAt. -/
structure Message where
  mid : Nat
  chatId : Nat
  content : String
  senderType : String
  senderName : String
  senderUid : Option String
  createdAt : Nat
  deriving DecidableEq, Repr

/-- The document store: Chat and Message collections, a fresh-id counter
standing for ObjectId generation, and the logical clock used both for
store-assigned createdAt values and for Date.now. -/
structure Store where
  chats : List Chat
  messages : List Message
  nextId : Nat
  clock : Nat
  deriving DecidableEq, Repr

def emptyStore : Store := { chats := [], messages := [], nextId := 0, clock := 0 }

/-- An outbound receive_message event as emitted to the socket. -/
structure Emission where
  id : String
  content : String
  senderType : String
  senderName : String
  timestamp : Nat
  deriving DecidableEq, Repr

/-- One observable step of a handler run, in execution order. -/
inductive Action where
  | findChat (uid : String)
  | chatWrite (c : Chat)
  | msgWrite (m : Message)
  | genCall (prompt : String)
  | emitMsg (e : Emission)
  deriving DecidableEq, Repr

/-- Outcomes of the external collaborators for one event: whether each store
call fails for environmental reasons, and the generation result (none is a
failure, timeout or thrown error; some text is a successful reply). The
system prompt is the immutable text loaded at startup. -/
structure Env where
  sysPrompt : String
  findFails : Bool
  chatWriteFails : Bool
  userWriteFails : Bool
  aiWriteFails : Bool
  genResult : Option String
  deriving DecidableEq, Repr

/-- Result of one handler invocation: the store afterwards, the ordered
trace of observable actions, and whether an exception escaped the handler. -/
structure HResult where
  store : Store
  trace : List Action
  crashed : Bool
  deriving DecidableEq, Repr

def emissionsOf (tr : List Action) : List Emission :=
  tr.filterMap fun a => match a with
    | Action.emitMsg e => some e
    | _ => none

def msgWritesOf (tr : List Action) : List Message :=
  tr.filterMap fun a => match a with
    | Action.msgWrite m => some m
    | _ => none

/-- The fixed apologetic text of the fallback reply (server.js line 233). -/
def FALLBACK_CONTENT : String :=
  "I apologize, I am having trouble processing your request right now. Please try again later."

/-- The fixed assistant display name (server.js line 209). -/
def ASSISTANT_NAME : String := "K\x27artz Assistant"

/-- Chat.findOne on userId (server.js line 164). -/
def Chat.findOne (st : Store) (uid : String) : Option Chat :=
  st.chats.find? fun c => c.userId == uid

/-- Chat.create (server.js lines 169-173) with ChatSchema validation:
userId and userEmail required nonempty, userId unique; status passed by the
handler; lastMessageAt defaults to now; id and createdAt store-assigned. -/
def Chat.create (st : Store) (uid email : String) : Except String (Chat × Store) :=
  if uid = "" ∨ email = "" then Except.error "ValidationError: required"
  else if st.chats.any (fun c => c.userId == uid) then Except.error "E11000 duplicate key"
  else
    let c : Chat := { cid := st.nextId, userId := uid, userEmail := email,
                      status := "ai_active", lastMessageAt := st.clock,
                      createdAt := st.clock }
    Except.ok (c, { st with chats := st.chats ++ [c], nextId := st.nextId + 1,
                            clock := st.clock + 1 })

/-- chat.lastMessageAt = Date.now(); await chat.save() (server.js 177-178):
replaces the document with the given id by the updated one. -/
def Chat.save (st : Store) (c : Chat) : Store × Chat :=
  let c2 : Chat := { c with lastMessageAt := st.clock }
  ({ st with chats := st.chats.map (fun x => if x.cid == c.cid then c2 else x),
             clock := st.clock + 1 }, c2)

/-- Message.create with MessageSchema validation: content and senderName
required nonempty, senderType restricted to the enum; id and createdAt
store-assigned. -/
def Message.create (st : Store) (chatId : Nat) (content senderType senderName : String)
    (senderUid : Option String) : Except String (Message × Store) :=
  if content = "" ∨ senderName = "" then Except.error "ValidationError: required"
  else if senderType = "user" ∨ senderType = "ai" ∨ senderType = "human_agent" then
    let m : Message := { mid := st.nextId, chatId := chatId, content := content,
                         senderType := senderType, senderName := senderName,
                         senderUid := senderUid, createdAt := st.clock }
    Except.ok (m, { st with messages := st.messages ++ [m], nextId := st.nextId + 1,
                            clock := st.clock + 1 })
  else Except.error "ValidationError: enum"

/-- Step 1 of the send_message try block (identical in both revisions):
find the Chat for the uid; create it if absent, otherwise bump its
lastMessageAt and save. An error value carries the store and trace at the
point of failure (the thrown exception lands in the catch block). -/
def chatPhase (env : Env) (st0 : Store) (data : Payload) :
    Except (Store × List Action) (Chat × Store × List Action) :=
  if env.findFails then Except.error (st0, [])
  else
    match Chat.findOne st0 data.uid with
    | none =>
      if env.chatWriteFails then Except.error (st0, [Action.findChat data.uid])
      else
        match Chat.create st0 data.uid data.email with
        | Except.error _ => Except.error (st0, [Action.findChat data.uid])
        | Except.ok (c, st1) =>
          Except.ok (c, st1, [Action.findChat data.uid, Action.chatWrite c])
    | some c0 =>
      if env.chatWriteFails then Except.error (st0, [Action.findChat data.uid])
      else
        let p := Chat.save st0 c0
        Except.ok (p.2, p.1, [Action.findChat data.uid, Action.chatWrite p.2])

/-- The shared body of the send_message try block: thread resolution, user
message persistence, prompt construction, the generation call, assistant
message persistence, and the success emission. The two revisions differ only
in the userSenderName argument (first revision: data.senderName with the
Client default; second revision: data.senderName unchanged) and in what
their catch blocks do with an error outcome. -/
def sendMessageBody (env : Env) (st0 : Store) (data : Payload) (userSenderName : String) :
    Except (Store × List Action) (Store × List Action) :=
  match chatPhase env st0 data with
  | Except.error e => Except.error e
  | Except.ok (chat, st1, tr1) =>
    if env.userWriteFails then Except.error (st1, tr1)
    else
      match Message.create st1 chat.cid data.content "user" userSenderName (some data.uid) with
      | Except.error _ => Except.error (st1, tr1)
      | Except.ok (um, st2) =>
        let prompt := env.sysPrompt ++ "\n\nClient Question: " ++ data.content
          ++ "\nK\x27artz Assistant Answer:"
        match env.genResult with
        | none => Except.error (st2, tr1 ++ [Action.msgWrite um, Action.genCall prompt])
        | some aiText =>
          if env.aiWriteFails then
            Except.error (st2, tr1 ++ [Action.msgWrite um, Action.genCall prompt])
          else
            match Message.create st2 chat.cid aiText "ai" ASSISTANT_NAME none with
            | Except.error _ =>
              Except.error (st2, tr1 ++ [Action.msgWrite um, Action.genCall prompt])
            | Except.ok (am, st3) =>
              Except.ok (st3, tr1 ++ [Action.msgWrite um, Action.genCall prompt,
                Action.msgWrite am,
                Action.emitMsg { id := Nat.repr am.mid, content := am.content,
                                 senderType := am.senderType, senderName := am.senderName,
                                 timestamp := am.createdAt }])

/-- The send_message handler of the first server revision (server.js
lines 149-239): validation returns silently on a falsy uid, email or
content; a missing payload object crashes on the property access before the
try block; the catch block emits the fixed fallback reply with id
temp_error_ plus Date.now, senderType ai, senderName System Error and the
current time as timestamp; the user message sender name defaults to
Client. -/
def handleSendMessageV1 (env : Env) (st : Store) (data? : Option Payload) : HResult :=
  match data? with
  | none => { store := st, trace := [], crashed := true }
  | some data =>
    if data.uid = "" ∨ data.email = "" ∨ data.content = "" then
      { store := st, trace := [], crashed := false }
    else
      match sendMessageBody env st data
          (if data.senderName = "" then "Client" else data.senderName) with
      | Except.ok (st2, tr) => { store := st2, trace := tr, crashed := false }
      | Except.error (st2, tr) =>
        { store := st2,
          trace := tr ++ [Action.emitMsg
            { id := "temp_error_" ++ Nat.repr st2.clock, content := FALLBACK_CONTENT,
              senderType := "ai", senderName := "System Error", timestamp := st2.clock }],
          crashed := false }

/-- The send_message handler of the second server revision (server.js
lines 359-399): same validation and body, but the user message sender name
is passed through with no default, and the catch block only logs, emitting
nothing. -/
def handleSendMessageV2 (env : Env) (st : Store) (data? : Option Payload) : HResult :=
  match data? with
  | none => { store := st, trace := [], crashed := true }
  | some data =>
    if data.uid = "" ∨ data.email = "" ∨ data.content = "" then
      { store := st, trace := [], crashed := false }
    else
      match sendMessageBody env st data data.senderName with
      | Except.ok (st2, tr) => { store := st2, trace := tr, crashed := false }
      | Except.error (st2, tr) => { store := st2, trace := tr, crashed := false }

/-- One history item as serialized by GET /api/chat-history/:uid: exactly
the fields id, content, senderType, senderName, timestamp. -/
structure HistoryItem where
  id : String
  content : String
  senderType : String
  senderName : String
  timestamp : Nat
  deriving DecidableEq, Repr

/-- The projection applied to each raw message by the route. -/
def projectMessage (m : Message) : HistoryItem :=
  { id := Nat.repr m.mid, content := m.content, senderType := m.senderType,
    senderName := m.senderName, timestamp := m.createdAt }

/-- Sort key of Message.find(..).sort with createdAt ascending. -/
def msgLe (a b : Message) : Prop := a.createdAt ≤ b.createdAt

instance : DecidableRel msgLe := fun a b => Nat.decLe a.createdAt b.createdAt

instance : IsTotal Message msgLe := ⟨fun a b => Nat.le_total a.createdAt b.createdAt⟩

instance : IsTrans Message msgLe := ⟨fun _ _ _ h1 h2 => Nat.le_trans h1 h2⟩

/-- GET /api/chat-history/:uid (both revisions are identical): 400 on a
falsy uid; empty array when no Chat exists; otherwise the chat's messages
sorted by createdAt ascending, each projected. The error value is the HTTP
status code. -/
def getHistory (st : Store) (uid : String) : Except Nat (List HistoryItem) :=
  if uid = "" then Except.error 400
  else
    match Chat.findOne st uid with
    | none => Except.ok []
    | some chat =>
      Except.ok
        (((st.messages.filter fun m => m.chatId == chat.cid).insertionSort msgLe).map
          projectMessage)

/-! ## Helper lemmas -/

theorem digitChar_isDigit (m : Nat) (h : m < 10) : (Nat.digitChar m).isDigit = true := by
  interval_cases m <;> decide

theorem toDigitsCore_append (f n : Nat) (ds : List Char) :
    ∃ l, Nat.toDigitsCore 10 f n ds = l ++ ds ∧ ∀ c ∈ l, c.isDigit = true := by
  induction f generalizing n ds with
  | zero => exact ⟨[], rfl, by simp⟩
  | succ f ih =>
    simp only [Nat.toDigitsCore]
    by_cases h : n / 10 = 0
    · refine ⟨[Nat.digitChar (n % 10)], by simp [h], ?_⟩
      intro c hc
      simp at hc
      subst hc
      exact digitChar_isDigit _ (Nat.mod_lt _ (by norm_num))
    · obtain ⟨l, hl, hd⟩ := ih (n / 10) (Nat.digitChar (n % 10) :: ds)
      refine ⟨l ++ [Nat.digitChar (n % 10)], ?_, ?_⟩
      · simp [h, hl]
      · intro c hc
        rcases List.mem_append.mp hc with h1 | h1
        · exact hd c h1
        · simp at h1
          subst h1
          exact digitChar_isDigit _ (Nat.mod_lt _ (by norm_num))

theorem repr_head_isDigit (n : Nat) :
    ∃ c cs, (Nat.repr n).data = c :: cs ∧ c.isDigit = true := by
  obtain ⟨l, hl, hd⟩ := toDigitsCore_append (n + 1) n []
  have hdata : (Nat.repr n).data = Nat.toDigitsCore 10 (n + 1) n [] := rfl
  rw [hl, List.append_nil] at hdata
  cases l with
  | nil =>
    exfalso
    have h1 : Nat.toDigitsCore 10 (n + 1) n [] = ([] : List Char) := by
      rw [hl]; rfl
    simp only [Nat.toDigitsCore] at h1
    by_cases h : n / 10 = 0
    · simp [h] at h1
    · rw [if_neg h] at h1
      obtain ⟨l2, hl2, _⟩ := toDigitsCore_append n (n / 10) (Nat.digitChar (n % 10) :: [])
      rw [hl2] at h1
      simp at h1
    | cons c cs => exact ⟨c, cs, hdata, hd c (by simp)⟩

/-- A synthesized fallback identifier is never the string form of a
store-assigned document id: it starts with a letter, the other with a
digit. -/
theorem temp_error_ne_repr (t n : Nat) : "temp_error_" ++ Nat.repr t ≠ Nat.repr n := by
  intro h
  obtain ⟨c, cs, hdata, hdig⟩ := repr_head_isDigit n
  have h2 : ("temp_error_" ++ Nat.repr t).data = (Nat.repr n).data := by rw [h]
  rw [String.data_append, hdata] at h2
  have h3 : "temp_error_".data = 't' :: "emp_error_".data := by decide
  rw [h3, List.cons_append] at h2
  have h4 : 't' = c := (List.cons.injEq _ _ _ _ ▸ h2).1
  rw [← h4] at hdig
  exact absurd hdig (by decide)

theorem emissionsOf_append (a b : List Action) :
    emissionsOf (a ++ b) = emissionsOf a ++ emissionsOf b :=
  List.filterMap_append a b _

theorem msgWritesOf_append (a b : List Action) :
    msgWritesOf (a ++ b) = msgWritesOf a ++ msgWritesOf b :=
  List.filterMap_append a b _

theorem messageCreate_ok {st : Store} {chatId : Nat}
    {content senderType senderName : String} {senderUid : Option String}
    {m : Message} {st' : Store}
    (h : Message.create st chatId content senderType senderName senderUid
      = Except.ok (m, st')) :
    m.mid = st.nextId ∧ m.chatId = chatId ∧ m.content = content ∧
    m.senderType = senderType ∧ m.senderName = senderName ∧
    m.senderUid = senderUid ∧ m.createdAt = st.clock ∧
    st'.messages = st.messages ++ [m] ∧ st'.chats = st.chats ∧
    st'.nextId = st.nextId + 1 ∧ st'.clock = st.clock + 1 := by
  unfold Message.create at h
  split at h
  · exact absurd h (by simp)
  · split at h
    · simp only [Except.ok.injEq, Prod.mk.injEq] at h
      obtain ⟨hm, hst⟩ := h
      subst hm
      subst hst
      simp
    · exact absurd h (by simp)

theorem chatCreate_ok {st : Store} {uid email : String} {c : Chat} {st' : Store}
    (h : Chat.create st uid email = Except.ok (c, st')) :
    c.cid = st.nextId ∧ c.userId = uid ∧ c.userEmail = email ∧
    st'.chats = st.chats ++ [c] ∧ st'.messages = st.messages ∧
    st'.nextId = st.nextId + 1 ∧ st'.clock = st.clock + 1 := by
  unfold Chat.create at h
  split at h
  · exact absurd h (by simp)
  · split at h
    · exact absurd h (by simp)
    · simp only [Except.ok.injEq, Prod.mk.injEq] at h
      obtain ⟨hc, hst⟩ := h
      subst hc
      subst hst
      simp

theorem chatPhase_error {env : Env} {st0 : Store} {d : Payload} {st' : Store}
    {tr : List Action}
    (h : chatPhase env st0 d = Except.error (st', tr)) :
    st' = st0 ∧ emissionsOf tr = [] ∧ msgWritesOf tr = [] := by
  unfold chatPhase at h
  split at h
  · simp only [Except.error.injEq, Prod.mk.injEq] at h
    exact ⟨h.1.symm, by rw [← h.2]; rfl, by rw [← h.2]; rfl⟩
  · split at h
    · split at h
      · simp only [Except.error.injEq, Prod.mk.injEq] at h
        exact ⟨h.1.symm, by rw [← h.2]; rfl, by rw [← h.2]; rfl⟩
      · split at h
        · simp only [Except.error.injEq, Prod.mk.injEq] at h
          exact ⟨h.1.symm, by rw [← h.2]; rfl, by rw [← h.2]; rfl⟩
        · exact absurd h (by simp)
    · split at h
      · simp only [Except.error.injEq, Prod.mk.injEq] at h
        exact ⟨h.1.symm, by rw [← h.2]; rfl, by rw [← h.2]; rfl⟩
      · exact absurd h (by simp)

theorem chatPhase_okCases {env : Env} {st0 : Store} {d : Payload} {c : Chat}
    {st1 : Store} {tr : List Action}
    (h : chatPhase env st0 d = Except.ok (c, st1, tr)) :
    tr = [Action.findChat d.uid, Action.chatWrite c] ∧
    st1.messages = st0.messages ∧
    emissionsOf tr = [] ∧ msgWritesOf tr = [] := by
  unfold chatPhase at h
  split at h
  · exact absurd h (by simp)
  · split at h
    · split at h
      · exact absurd h (by simp)
      · split at h
        · exact absurd h (by simp)
        · rename_i heq
          simp only [Except.ok.injEq, Prod.mk.injEq] at h
          obtain ⟨hc, hst, htr⟩ := h
          subst hc
          subst hst
          subst htr
          exact ⟨rfl, (chatCreate_ok heq).2.2.2.2.1, rfl, rfl⟩
    · split at h
      · exact absurd h (by simp)
      · simp only [Chat.save, Except.ok.injEq, Prod.mk.injEq] at h
        obtain ⟨hc, hst, htr⟩ := h
        subst hc
        subst hst
        subst htr
        exact ⟨rfl, rfl, rfl, rfl⟩

/-- Every run of the shared try-block body either throws, with no emission
in its partial trace, or succeeds, with exactly one emission, built from the
assistant Message that the run persisted. -/
theorem sendMessageBody_cases (env : Env) (st0 : Store) (d : Payload) (usn : String) :
    (∃ st' tr, sendMessageBody env st0 d usn = Except.error (st', tr) ∧
      emissionsOf tr = []) ∨
    (∃ st' tr am, sendMessageBody env st0 d usn = Except.ok (st', tr) ∧
      emissionsOf tr = [{ id := Nat.repr am.mid, content := am.content,
                          senderType := am.senderType, senderName := am.senderName,
                          timestamp := am.createdAt }] ∧
      am ∈ st'.messages ∧ am.senderType = "ai" ∧ am.senderName = ASSISTANT_NAME) := by
  unfold sendMessageBody
  cases hcp : chatPhase env st0 d with
  | error e =>
    exact Or.inl ⟨e.1, e.2, rfl, (chatPhase_error (by rw [hcp])).2.1⟩
  | ok v =>
    obtain ⟨chat, st1, tr1⟩ := v
    obtain ⟨htr1, hmsgs1, hem1, hmw1⟩ := chatPhase_okCases hcp
    by_cases huf : env.userWriteFails
    · exact Or.inl ⟨st1, tr1, by simp [huf], hem1⟩
    · simp only [huf, Bool.false_eq_true, if_false]
      cases hum : Message.create st1 chat.cid d.content "user" usn (some d.uid) with
      | error _ => exact Or.inl ⟨st1, tr1, rfl, hem1⟩
      | ok p =>
        obtain ⟨um, st2⟩ := p
        cases hg : env.genResult with
        | none =>
          refine Or.inl ⟨st2, _, rfl, ?_⟩
          rw [emissionsOf_append, hem1]
          rfl
        | some aiText =>
          by_cases haf : env.aiWriteFails
          · simp only [haf, if_true]
            refine Or.inl ⟨st2, _, rfl, ?_⟩
            rw [emissionsOf_append, hem1]
            rfl
          · simp only [haf, Bool.false_eq_true, if_false]
            cases ham : Message.create st2 chat.cid aiText "ai" ASSISTANT_NAME none with
            | error _ =>
              refine Or.inl ⟨st2, _, rfl, ?_⟩
              rw [emissionsOf_append, hem1]
              rfl
            | ok q =>
              obtain ⟨am, st3⟩ := q
              have hh := messageCreate_ok ham
              refine Or.inr ⟨st3, _, am, rfl, ?_, ?_, hh.2.2.2.1, hh.2.2.2.2.1⟩
              · rw [emissionsOf_append, hem1]
                rfl
              · rw [hh.2.2.2.2.2.2.2.1]
                exact List.mem_append.mpr (Or.inr (by simp))

theorem Message.create_succeeds (st : Store) (chatId : Nat)
    {content senderName : String} (senderType : String) (senderUid : Option String)
    (hc : content ≠ "") (hn : senderName ≠ "")
    (ht : senderType = "user" ∨ senderType = "ai" ∨ senderType = "human_agent") :
    Message.create st chatId content senderType senderName senderUid =
      Except.ok ({ mid := st.nextId, chatId := chatId, content := content,
                   senderType := senderType, senderName := senderName,
                   senderUid := senderUid, createdAt := st.clock },
                 { st with
                   messages := st.messages ++
                     [{ mid := st.nextId, chatId := chatId, content := content,
                        senderType := senderType, senderName := senderName,
                        senderUid := senderUid, createdAt := st.clock }],
                   nextId := st.nextId + 1, clock := st.clock + 1 }) := by
  unfold Message.create
  rw [if_neg (by simp [hc, hn]), if_pos ht]

theorem chatPhase_ok {env : Env} {st0 : Store} {d : Payload}
    (hf : env.findFails = false) (hw : env.chatWriteFails = false)
    (hu : d.uid ≠ "") (he : d.email ≠ "") :
    ∃ c st1, chatPhase env st0 d =
        Except.ok (c, st1, [Action.findChat d.uid, Action.chatWrite c]) ∧
      st1.messages = st0.messages := by
  unfold chatPhase
  rw [hf]
  simp only [Bool.false_eq_true, if_false]
  cases hfind : Chat.findOne st0 d.uid with
  | none =>
    rw [hw]
    simp only [Bool.false_eq_true, if_false]
    have hany : (st0.chats.any fun c => c.userId == d.uid) = false := by
      rw [List.any_eq_false]
      intro x hx
      exact List.find?_eq_none.mp hfind x hx
    have hcr : Chat.create st0 d.uid d.email = Except.ok
        ({ cid := st0.nextId, userId := d.uid, userEmail := d.email,
           status := "ai_active", lastMessageAt := st0.clock, createdAt := st0.clock },
         { st0 with
           chats := st0.chats ++
             [{ cid := st0.nextId, userId := d.uid, userEmail := d.email,
                status := "ai_active", lastMessageAt := st0.clock, createdAt := st0.clock }],
           nextId := st0.nextId + 1, clock := st0.clock + 1 }) := by
      unfold Chat.create
      rw [if_neg (by simp [hu, he]), if_neg (by simp [hany])]
    rw [hcr]
    exact ⟨_, _, rfl, rfl⟩
  | some c0 =>
    rw [hw]
    simp only [Bool.false_eq_true, if_false, Chat.save]
    exact ⟨_, _, rfl, rfl⟩

/-- The shared body on a validated payload when the store is healthy but the
generation call fails: the user Message alone is appended and the body
throws after the generation call. -/
theorem sendMessageBody_genFail {env : Env} {st0 : Store} {d : Payload} {usn : String}
    (hf : env.findFails = false) (hw : env.chatWriteFails = false)
    (huf : env.userWriteFails = false) (hg : env.genResult = none)
    (hu : d.uid ≠ "") (he : d.email ≠ "") (hc : d.content ≠ "") (husn : usn ≠ "") :
    ∃ c um st2, sendMessageBody env st0 d usn = Except.error (st2,
        [Action.findChat d.uid, Action.chatWrite c, Action.msgWrite um,
         Action.genCall (env.sysPrompt ++ "\n\nClient Question: " ++ d.content
           ++ "\nK\x27artz Assistant Answer:")]) ∧
      st2.messages = st0.messages ++ [um] ∧ um.senderType = "user" ∧
      um.content = d.content ∧ um.senderName = usn ∧ um.senderUid = some d.uid := by
  obtain ⟨c, st1, hcp, hmsgs⟩ := chatPhase_ok hf hw hu he
  unfold sendMessageBody
  rw [hcp, huf]
  simp only [Bool.false_eq_true, if_false]
  rw [Message.create_succeeds st1 c.cid "user" (some d.uid) hc husn (Or.inl rfl), hg]
  refine ⟨c, _, _, rfl, ?_, rfl, rfl, rfl, rfl⟩
  simp [hmsgs]

/-- The shared body on a validated payload when every collaborator succeeds
and the generated text is nonempty: both Messages are appended in order and
the success emission closes the trace. -/
theorem sendMessageBody_success {env : Env} {st0 : Store} {d : Payload} {usn : String}
    {txt : String}
    (hf : env.findFails = false) (hw : env.chatWriteFails = false)
    (huf : env.userWriteFails = false) (haf : env.aiWriteFails = false)
    (hg : env.genResult = some txt) (htxt : txt ≠ "")
    (hu : d.uid ≠ "") (he : d.email ≠ "") (hc : d.content ≠ "") (husn : usn ≠ "") :
    ∃ c um am st3, sendMessageBody env st0 d usn = Except.ok (st3,
        [Action.findChat d.uid, Action.chatWrite c, Action.msgWrite um,
         Action.genCall (env.sysPrompt ++ "\n\nClient Question: " ++ d.content
           ++ "\nK\x27artz Assistant Answer:"),
         Action.msgWrite am,
         Action.emitMsg { id := Nat.repr am.mid, content := am.content,
                          senderType := am.senderType, senderName := am.senderName,
                          timestamp := am.createdAt }]) ∧
      st3.messages = st0.messages ++ [um, am] ∧
      um.senderType = "user" ∧ um.content = d.content ∧ um.senderName = usn ∧
      am.senderType = "ai" ∧ am.content = txt ∧ am.senderName = ASSISTANT_NAME ∧
      um.createdAt < am.createdAt := by
  obtain ⟨c, st1, hcp, hmsgs⟩ := chatPhase_ok hf hw hu he
  unfold sendMessageBody
  rw [hcp, huf]
  simp only [Bool.false_eq_true, if_false]
  rw [Message.create_succeeds st1 c.cid "user" (some d.uid) hc husn (Or.inl rfl), hg, haf]
  simp only [Bool.false_eq_true, if_false]
  rw [Message.create_succeeds _ c.cid "ai" none htxt (by simp [ASSISTANT_NAME])
    (Or.inr (Or.inl rfl))]
  refine ⟨c, _, _, _, rfl, ?_, rfl, rfl, rfl, rfl, rfl, rfl, by simp⟩
  simp [hmsgs]

/-! ## Thread uniqueness machinery -/

/-- At most one Chat per user identity. -/
def ChatInv (st : Store) : Prop := ∀ u, (st.chats.map Chat.userId).count u ≤ 1

/-- Store sanity: document ids in the Chat collection are pairwise distinct
and below the fresh-id counter; both hold of every store the system can
build (ids come from the counter). -/
def StoreWF (st : Store) : Prop :=
  (st.chats.map Chat.cid).Pairwise (fun a b => a ≠ b) ∧ ∀ c ∈ st.chats, c.cid < st.nextId

theorem map_save_cid {l : List Chat} {c0 c2 : Chat} (hc : c2.cid = c0.cid) :
    (l.map fun x => if x.cid == c0.cid then c2 else x).map Chat.cid = l.map Chat.cid := by
  induction l with
  | nil => rfl
  | cons x t ih =>
    simp only [List.map_cons, ih]
    by_cases h : x.cid == c0.cid
    · rw [if_pos h, hc]
      have : x.cid = c0.cid := by simpa using h
      rw [this]
    · rw [if_neg h]

theorem map_save_userId {l : List Chat} {c0 c2 : Chat} (hm : c0 ∈ l)
    (hp : (l.map Chat.cid).Pairwise fun a b => a ≠ b) (hu : c2.userId = c0.userId) :
    (l.map fun x => if x.cid == c0.cid then c2 else x).map Chat.userId
      = l.map Chat.userId := by
  rw [List.pairwise_map] at hp
  induction l with
  | nil => rfl
  | cons x t ih =>
    rw [List.pairwise_cons] at hp
    obtain ⟨hx, hpt⟩ := hp
    rcases List.mem_cons.mp hm with hcx | hct
    · subst hcx
      have hpt2 : ∀ y ∈ t, (if y.cid == c0.cid then c2 else y) = y := by
        intro y hy
        have hne : ¬((y.cid == c0.cid) = true) := by
          intro hEq
          have h5 : y.cid = c0.cid := by simpa using hEq
          exact hx y hy h5.symm
        rw [if_neg hne]
      simp only [List.map_cons, beq_self_eq_true, if_true, hu]
      rw [List.map_congr_left hpt2]
      simp
    · have hxc : ¬((x.cid == c0.cid) = true) := by
        intro hEq
        exact hx c0 hct (by simpa using hEq)
      simp only [List.map_cons, if_neg hxc]
      rw [ih hct hpt]

/-- A successful chat phase either created the thread fresh (when the
lookup found none) or replaced the found thread by a copy that differs only
in lastMessageAt. -/
theorem chatPhase_ok_chats {env : Env} {st0 : Store} {d : Payload} {c : Chat}
    {st1 : Store} {tr : List Action}
    (h : chatPhase env st0 d = Except.ok (c, st1, tr)) :
    (Chat.findOne st0 d.uid = none ∧ c.cid = st0.nextId ∧ c.userId = d.uid ∧
      st1.chats = st0.chats ++ [c] ∧ st1.nextId = st0.nextId + 1) ∨
    (∃ c0, Chat.findOne st0 d.uid = some c0 ∧ c0 ∈ st0.chats ∧
      c.userId = c0.userId ∧ c.cid = c0.cid ∧
      st1.chats = (st0.chats.map fun x => if x.cid == c0.cid then c else x) ∧
      st1.nextId = st0.nextId) := by
  unfold chatPhase at h
  split at h
  · exact absurd h (by simp)
  · cases hfind : Chat.findOne st0 d.uid with
    | none =>
      simp only [hfind] at h
      split at h
      · exact absurd h (by simp)
      · split at h
        · exact absurd h (by simp)
        · rename_i heq
          have hcr := chatCreate_ok heq
          simp only [Except.ok.injEq, Prod.mk.injEq] at h
          obtain ⟨hc, hst, -⟩ := h
          subst hc
          subst hst
          exact Or.inl ⟨rfl, hcr.1, hcr.2.1, hcr.2.2.2.1, hcr.2.2.2.2.2.1⟩
    | some c0 =>
      simp only [hfind] at h
      split at h
      · exact absurd h (by simp)
      · simp only [Chat.save, Except.ok.injEq, Prod.mk.injEq] at h
        obtain ⟨hc, hst, -⟩ := h
        subst hc
        subst hst
        exact Or.inr ⟨c0, rfl, List.mem_of_find?_eq_some hfind, rfl, rfl, rfl, rfl⟩

/-- How a full body run can change the Chat collection: not at all, by
appending a freshly created Chat for the uid when none existed, or by
replacing an existing Chat by a copy with a newer lastMessageAt. -/
theorem sendMessageBody_chats {env : Env} {st0 : Store} {d : Payload} {usn : String}
    {st' : Store} {tr : List Action}
    (h : sendMessageBody env st0 d usn = Except.ok (st', tr) ∨
         sendMessageBody env st0 d usn = Except.error (st', tr)) :
    st0.nextId ≤ st'.nextId ∧
    (st'.chats = st0.chats ∨
     (Chat.findOne st0 d.uid = none ∧ st0.nextId < st'.nextId ∧
       ∃ c, c.cid = st0.nextId ∧ c.userId = d.uid ∧ st'.chats = st0.chats ++ [c]) ∨
     (∃ c0, c0 ∈ st0.chats ∧ ∃ c2, c2.userId = c0.userId ∧ c2.cid = c0.cid ∧
       st'.chats = st0.chats.map fun x => if x.cid == c0.cid then c2 else x)) := by
  have hrest : ∀ (chat : Chat) (st1 : Store) (tr1 : List Action),
      chatPhase env st0 d = Except.ok (chat, st1, tr1) →
      st1.nextId ≤ st'.nextId ∧ st'.chats = st1.chats := by
    intro chat st1 tr1 hcp
    unfold sendMessageBody at h
    rw [hcp] at h
    by_cases huf : env.userWriteFails
    · simp only [huf, if_true] at h
      rcases h with h | h
      · exact absurd h (by simp)
      · simp only [Except.error.injEq, Prod.mk.injEq] at h
        rw [← h.1]
        exact ⟨Nat.le_refl _, rfl⟩
    · simp only [huf, Bool.false_eq_true, if_false] at h
      cases hum : Message.create st1 chat.cid d.content "user" usn (some d.uid) with
      | error _ =>
        rw [hum] at h
        rcases h with h | h
        · exact absurd h (by simp)
        · simp only [Except.error.injEq, Prod.mk.injEq] at h
          rw [← h.1]
          exact ⟨Nat.le_refl _, rfl⟩
      | ok p =>
        obtain ⟨um, st2⟩ := p
        have h2 := messageCreate_ok hum
        rw [hum] at h
        have hn2 : st1.nextId ≤ st2.nextId := by rw [h2.2.2.2.2.2.2.2.2.2.1]; exact Nat.le_succ _
        have hc2 : st2.chats = st1.chats := h2.2.2.2.2.2.2.2.2.1
        cases hg : env.genResult with
        | none =>
          rw [hg] at h
          rcases h with h | h
          · exact absurd h (by simp)
          · simp only [Except.error.injEq, Prod.mk.injEq] at h
            rw [← h.1]
            exact ⟨hn2, hc2⟩
        | some aiText =>
          rw [hg] at h
          by_cases haf : env.aiWriteFails
          · simp only [haf, if_true] at h
            rcases h with h | h
            · exact absurd h (by simp)
            · simp only [Except.error.injEq, Prod.mk.injEq] at h
              rw [← h.1]
              exact ⟨hn2, hc2⟩
          · simp only [haf, Bool.false_eq_true, if_false] at h
            cases ham : Message.create st2 chat.cid aiText "ai" ASSISTANT_NAME none with
            | error _ =>
              rw [ham] at h
              rcases h with h | h
              · exact absurd h (by simp)
              · simp only [Except.error.injEq, Prod.mk.injEq] at h
                rw [← h.1]
                exact ⟨hn2, hc2⟩
            | ok q =>
              obtain ⟨am, st3⟩ := q
              have h3 := messageCreate_ok ham
              rw [ham] at h
              rcases h with h | h
              · simp only [Except.ok.injEq, Prod.mk.injEq] at h
                rw [← h.1]
                refine ⟨Nat.le_trans hn2 ?_, by rw [h3.2.2.2.2.2.2.2.2.1, hc2]⟩
                rw [h3.2.2.2.2.2.2.2.2.2.1]
                exact Nat.le_succ _
              · exact absurd h (by simp)
  cases hcp : chatPhase env st0 d with
  | error e =>
    have he1 : e.1 = st0 := (@chatPhase_error env st0 d e.1 e.2 (by rw [hcp])).1
    unfold sendMessageBody at h
    rw [hcp] at h
    rcases h with h | h
    · exact absurd h (by simp)
    · simp only [Except.error.injEq] at h
      have hst : st' = st0 := by rw [← he1, h]
      rw [hst]
      exact ⟨Nat.le_refl _, Or.inl rfl⟩
  | ok v =>
    obtain ⟨chat, st1, tr1⟩ := v
    obtain ⟨hle, hchats⟩ := hrest chat st1 tr1 hcp
    rcases chatPhase_ok_chats hcp with ⟨hfind, hcid, huid, hch, hnext⟩ |
      ⟨c0, hfind, hmem, huid, hcid, hch, hnext⟩
    · refine ⟨?_, Or.inr (Or.inl ⟨hfind, ?_, chat, hcid, huid, by rw [hchats, hch]⟩)⟩
      · refine Nat.le_trans ?_ hle
        rw [hnext]
        exact Nat.le_succ _
      · calc st0.nextId < st0.nextId + 1 := Nat.lt_succ_self _
          _ = st1.nextId := hnext.symm
          _ ≤ st'.nextId := hle
    · refine ⟨?_, Or.inr (Or.inr ⟨c0, hmem, chat, huid, hcid, by rw [hchats, hch]⟩)⟩
      rw [← hnext]
      exact hle

theorem handleV1_chats (env : Env) (st : Store) (data? : Option Payload) :
    st.nextId ≤ (handleSendMessageV1 env st data?).store.nextId ∧
    ((handleSendMessageV1 env st data?).store.chats = st.chats ∨
     (∃ d, data? = some d ∧ Chat.findOne st d.uid = none ∧
       st.nextId < (handleSendMessageV1 env st data?).store.nextId ∧
       ∃ c, c.cid = st.nextId ∧ c.userId = d.uid ∧
         (handleSendMessageV1 env st data?).store.chats = st.chats ++ [c]) ∨
     (∃ c0, c0 ∈ st.chats ∧ ∃ c2, c2.userId = c0.userId ∧ c2.cid = c0.cid ∧
       (handleSendMessageV1 env st data?).store.chats =
         (st.chats.map fun x => if x.cid == c0.cid then c2 else x))) := by
  cases data? with
  | none => exact ⟨Nat.le_refl _, Or.inl rfl⟩
  | some d =>
    unfold handleSendMessageV1
    by_cases hv : d.uid = "" ∨ d.email = "" ∨ d.content = ""
    · simp only [if_pos hv]
      exact ⟨Nat.le_refl _, Or.inl trivial⟩
    · simp only [if_neg hv]
      cases hb : sendMessageBody env st d
          (if d.senderName = "" then "Client" else d.senderName) with
      | ok p =>
        obtain ⟨st2, tr⟩ := p
        obtain ⟨hle, hch⟩ := sendMessageBody_chats (Or.inl hb)
        refine ⟨hle, ?_⟩
        rcases hch with hch | ⟨hfind, hlt, c, hc1, hc2, hc3⟩ | hch
        · exact Or.inl hch
        · exact Or.inr (Or.inl ⟨d, rfl, hfind, hlt, c, hc1, hc2, hc3⟩)
        · exact Or.inr (Or.inr hch)
      | error p =>
        obtain ⟨st2, tr⟩ := p
        obtain ⟨hle, hch⟩ := sendMessageBody_chats (Or.inr hb)
        refine ⟨hle, ?_⟩
        rcases hch with hch | ⟨hfind, hlt, c, hc1, hc2, hc3⟩ | hch
        · exact Or.inl hch
        · exact Or.inr (Or.inl ⟨d, rfl, hfind, hlt, c, hc1, hc2, hc3⟩)
        · exact Or.inr (Or.inr hch)

theorem handleV1_preserves_inv (env : Env) (st : Store) (data? : Option Payload)
    (hinv : ChatInv st) (hwf : StoreWF st) :
    ChatInv (handleSendMessageV1 env st data?).store ∧
    StoreWF (handleSendMessageV1 env st data?).store := by
  obtain ⟨hle, hch⟩ := handleV1_chats env st data?
  rcases hch with hch | ⟨d, hd, hfind, hlt, c, hcid, huid, hch⟩ |
    ⟨c0, hmem, c2, huid, hcid, hch⟩
  · refine ⟨fun u => by rw [hch]; exact hinv u, by rw [hch]; exact hwf.1, ?_⟩
    intro x hx
    rw [hch] at hx
    exact Nat.lt_of_lt_of_le (hwf.2 x hx) hle
  · constructor
    · intro u
      rw [hch, List.map_append, List.count_append]
      by_cases hu : u = d.uid
      · have hzero : (st.chats.map Chat.userId).count u = 0 := by
          rw [List.count_eq_zero]
          intro hmem2
          obtain ⟨x, hx, hxe⟩ := List.mem_map.mp hmem2
          have hnone := List.find?_eq_none.mp hfind x hx
          rw [hu] at hxe
          simp [hxe] at hnone
        rw [hzero]
        have : ([c].map Chat.userId).count u ≤ 1 := by
          by_cases hcu : c.userId = u <;> simp [List.count_cons, hcu]
        omega
      · have : ([c].map Chat.userId).count u = 0 := by
          rw [List.count_eq_zero]
          intro hmem2
          simp only [List.map_cons, List.map_nil, List.mem_singleton] at hmem2
          rw [huid] at hmem2
          exact hu hmem2
        rw [this]
        have := hinv u
        omega
    · constructor
      · rw [hch, List.map_append]
        rw [List.pairwise_append]
        refine ⟨hwf.1, by simp, ?_⟩
        intro a ha b hb
        simp only [List.map_cons, List.map_nil, List.mem_singleton] at hb
        obtain ⟨x, hx, hxe⟩ := List.mem_map.mp ha
        rw [hb, hcid, ← hxe]
        exact Nat.ne_of_lt (hwf.2 x hx)
      · intro x hx
        rw [hch] at hx
        rcases List.mem_append.mp hx with hx | hx
        · exact Nat.lt_of_lt_of_le (hwf.2 x hx) hle
        · simp only [List.mem_singleton] at hx
          rw [hx, hcid]
          exact hlt
  · have hud : ((st.chats.map fun x => if x.cid == c0.cid then c2 else x).map Chat.userId)
        = st.chats.map Chat.userId := map_save_userId hmem hwf.1 huid
    have hcd : ((st.chats.map fun x => if x.cid == c0.cid then c2 else x).map Chat.cid)
        = st.chats.map Chat.cid := map_save_cid hcid
    refine ⟨fun u => by rw [hch, hud]; exact hinv u, by rw [hch, hcd]; exact hwf.1, ?_⟩
    intro x hx
    rw [hch] at hx
    obtain ⟨y, hy, hxy⟩ := List.mem_map.mp hx
    have hcidx : x.cid = y.cid := by
      rw [← hxy]
      by_cases hb : (y.cid == c0.cid) = true
      · have hyc : y.cid = c0.cid := by simpa using hb
        rw [if_pos hb, hcid, hyc]
      · rw [if_neg hb]
    rw [hcidx]
    exact Nat.lt_of_lt_of_le (hwf.2 y hy) hle

/-- A whole session: fold a sequence of send_message events (each with its
own collaborator outcomes) through the first-revision handler. -/
def runEvents (st : Store) (evs : List (Env × Option Payload)) : Store :=
  evs.foldl (fun s ev => (handleSendMessageV1 ev.1 s ev.2).store) st

theorem runEvents_preserves (evs : List (Env × Option Payload)) (st : Store)
    (hinv : ChatInv st) (hwf : StoreWF st) :
    ChatInv (runEvents st evs) ∧ StoreWF (runEvents st evs) := by
  induction evs generalizing st with
  | nil => exact ⟨hinv, hwf⟩
  | cons ev evs ih =>
    have h := handleV1_preserves_inv ev.1 st ev.2 hinv hwf
    exact ih _ h.1 h.2

/-! ## Claim theorems -/

/-- Claim C2: on a validated event whose generation call fails after the
user message was persisted, the store afterwards holds exactly the user
message for the exchange (no assistant-kind Message is appended), and the
emitted reply is the complete fallback, non-empty, whose id is the
synthesized transient identifier temp_error_ plus the current clock, never
equal to a persisted Message id, with the current clock as timestamp. -/
theorem c2_fallback_never_persists (env : Env) (st : Store) (d : Payload)
    (hu : d.uid ≠ "") (he : d.email ≠ "") (hc : d.content ≠ "")
    (hf : env.findFails = false) (hw : env.chatWriteFails = false)
    (hm : env.userWriteFails = false) (hg : env.genResult = none) :
    ∃ um t,
      (handleSendMessageV1 env st (some d)).store.messages = st.messages ++ [um] ∧
      um.senderType = "user" ∧ um.content = d.content ∧ um.senderUid = some d.uid ∧
      emissionsOf (handleSendMessageV1 env st (some d)).trace =
        [{ id := "temp_error_" ++ Nat.repr t, content := FALLBACK_CONTENT,
           senderType := "ai", senderName := "System Error", timestamp := t }] ∧
      FALLBACK_CONTENT ≠ "" ∧
      ∀ m ∈ (handleSendMessageV1 env st (some d)).store.messages,
        Nat.repr m.mid ≠ "temp_error_" ++ Nat.repr t := by
  have husn : (if d.senderName = "" then "Client" else d.senderName) ≠ "" := by
    split
    · decide
    · assumption
  obtain ⟨c, um, st2, hbody, hmsgs, hty, hct, hnm, huidm⟩ :=
    @sendMessageBody_genFail env st d (if d.senderName = "" then "Client" else d.senderName)
      hf hw hm hg hu he hc husn
  have hv : ¬(d.uid = "" ∨ d.email = "" ∨ d.content = "") := by simp [hu, he, hc]
  unfold handleSendMessageV1
  simp only [if_neg hv, hbody]
  refine ⟨um, st2.clock, hmsgs, hty, hct, huidm, rfl, by decide, ?_⟩
  intro m _ hEq
  exact temp_error_ne_repr st2.clock m.mid hEq.symm

theorem c2_fallback_never_persists_witness :
    ∃ um t,
      (handleSendMessageV1
        { sysPrompt := "SP", findFails := false, chatWriteFails := false,
          userWriteFails := false, aiWriteFails := false, genResult := none }
        emptyStore
        (some { uid := "u2", email := "a@b.com", content := "Hi", senderName := "Bea" })).store.messages
        = emptyStore.messages ++ [um] ∧
      um.senderType = "user" ∧ um.content = "Hi" ∧ um.senderUid = some "u2" ∧
      emissionsOf (handleSendMessageV1
        { sysPrompt := "SP", findFails := false, chatWriteFails := false,
          userWriteFails := false, aiWriteFails := false, genResult := none }
        emptyStore
        (some { uid := "u2", email := "a@b.com", content := "Hi", senderName := "Bea" })).trace =
        [{ id := "temp_error_" ++ Nat.repr t, content := FALLBACK_CONTENT,
           senderType := "ai", senderName := "System Error", timestamp := t }] ∧
      FALLBACK_CONTENT ≠ "" ∧
      ∀ m ∈ (handleSendMessageV1
        { sysPrompt := "SP", findFails := false, chatWriteFails := false,
          userWriteFails := false, aiWriteFails := false, genResult := none }
        emptyStore
        (some { uid := "u2", email := "a@b.com", content := "Hi", senderName := "Bea" })).store.messages,
        Nat.repr m.mid ≠ "temp_error_" ++ Nat.repr t :=
  c2_fallback_never_persists _ emptyStore _
    (by decide) (by decide) (by decide) rfl rfl rfl rfl

/-- Claim C3: an inbound send_message event with a missing payload or an
empty uid, email or content performs zero store writes and emits zero
outbound events, in both handler revisions. -/
theorem c3_drop_on_invalid (env : Env) (st : Store) (data? : Option Payload)
    (h : data? = none ∨ ∃ d, data? = some d ∧ (d.uid = "" ∨ d.email = "" ∨ d.content = "")) :
    (handleSendMessageV1 env st data?).store = st ∧
    (handleSendMessageV1 env st data?).trace = [] ∧
    (handleSendMessageV2 env st data?).store = st ∧
    (handleSendMessageV2 env st data?).trace = [] := by
  rcases h with h | ⟨d, hd, hv⟩
  · subst h
    exact ⟨rfl, rfl, rfl, rfl⟩
  · subst hd
    unfold handleSendMessageV1 handleSendMessageV2
    simp [if_pos hv]

theorem c3_drop_on_invalid_witness :
    (handleSendMessageV1
        { sysPrompt := "SP", findFails := false, chatWriteFails := false,
          userWriteFails := false, aiWriteFails := false, genResult := some "Reply" }
        emptyStore
        (some { uid := "u3", email := "a@b.com", content := "", senderName := "" })).store
      = emptyStore ∧
    (handleSendMessageV1
        { sysPrompt := "SP", findFails := false, chatWriteFails := false,
          userWriteFails := false, aiWriteFails := false, genResult := some "Reply" }
        emptyStore
        (some { uid := "u3", email := "a@b.com", content := "", senderName := "" })).trace = [] ∧
    (handleSendMessageV2
        { sysPrompt := "SP", findFails := false, chatWriteFails := false,
          userWriteFails := false, aiWriteFails := false, genResult := some "Reply" }
        emptyStore
        (some { uid := "u3", email := "a@b.com", content := "", senderName := "" })).store
      = emptyStore ∧
    (handleSendMessageV2
        { sysPrompt := "SP", findFails := false, chatWriteFails := false,
          userWriteFails := false, aiWriteFails := false, genResult := some "Reply" }
        emptyStore
        (some { uid := "u3", email := "a@b.com", content := "", senderName := "" })).trace = [] :=
  c3_drop_on_invalid
    { sysPrompt := "SP", findFails := false, chatWriteFails := false,
      userWriteFails := false, aiWriteFails := false, genResult := some "Reply" }
    emptyStore
    (some { uid := "u3", email := "a@b.com", content := "", senderName := "" })
    (Or.inr ⟨{ uid := "u3", email := "a@b.com", content := "", senderName := "" }, rfl,
      Or.inr (Or.inr rfl)⟩)

/-- Claim C4: getHistory on a nonempty identity returns an empty sequence,
not an error, when no Chat exists for it, and otherwise all of that Chat's
messages in nondecreasing creation-timestamp order, each projected to
exactly the history fields (id, content, senderType, senderName,
timestamp). -/
theorem c4_history_contract (st : Store) (uid : String) (h : uid ≠ "") :
    (Chat.findOne st uid = none → getHistory st uid = Except.ok []) ∧
    (∀ c, Chat.findOne st uid = some c → ∃ l,
      getHistory st uid = Except.ok l ∧
      l.Pairwise (fun a b => a.timestamp ≤ b.timestamp) ∧
      l.Perm ((st.messages.filter fun m => m.chatId == c.cid).map projectMessage)) := by
  constructor
  · intro hf
    unfold getHistory
    rw [if_neg h, hf]
  · intro c hf
    unfold getHistory
    rw [if_neg h, hf]
    refine ⟨_, rfl, ?_, ?_⟩
    · have hs := List.sorted_insertionSort msgLe
        (st.messages.filter fun m => m.chatId == c.cid)
      exact List.Pairwise.map projectMessage (fun a b hab => hab) hs
    · exact (List.perm_insertionSort msgLe _).map projectMessage

/-- A concrete store for the history witness: one thread for u1 owning two
messages recorded out of timestamp order, plus a message of another
thread. -/
def historyWitnessStore : Store :=
  { chats := [{ cid := 0, userId := "u1", userEmail := "a@b.com",
                status := "ai_active", lastMessageAt := 0, createdAt := 0 }],
    messages :=
      [{ mid := 2, chatId := 0, content := "second", senderType := "ai",
         senderName := "K\x27artz Assistant", senderUid := none, createdAt := 5 },
       { mid := 1, chatId := 0, content := "first", senderType := "user",
         senderName := "Ana", senderUid := some "u1", createdAt := 3 },
       { mid := 3, chatId := 1, content := "other", senderType := "user",
         senderName := "Bea", senderUid := some "u9", createdAt := 4 }],
    nextId := 4, clock := 6 }

theorem c4_history_contract_witness :
    (Chat.findOne historyWitnessStore "u1" = none →
      getHistory historyWitnessStore "u1" = Except.ok []) ∧
    (∀ c, Chat.findOne historyWitnessStore "u1" = some c → ∃ l,
      getHistory historyWitnessStore "u1" = Except.ok l ∧
      l.Pairwise (fun a b => a.timestamp ≤ b.timestamp) ∧
      l.Perm ((historyWitnessStore.messages.filter fun m => m.chatId == c.cid).map
        projectMessage)) :=
  c4_history_contract historyWitnessStore "u1" (by decide)

/-- Claim C5: after any sequence of send_message events, each with arbitrary
collaborator outcomes and arbitrary payloads, the store holds at most one
Chat per user identity. -/
theorem c5_single_thread_invariant (evs : List (Env × Option Payload)) :
    ChatInv (runEvents emptyStore evs) := by
  refine (runEvents_preserves evs emptyStore ?_ ?_).1
  · intro u
    simp [emptyStore]
  · constructor
    · simp [emptyStore]
    · intro c hc
      simp [emptyStore] at hc

/-- Claim C9: within one validated event whose pipeline completes, the trace
places the user-message write strictly before the generation call, the
generation call strictly before the assistant-message write, and that write
strictly before the reply emission. -/
theorem c9_pipeline_order (env : Env) (st : Store) (d : Payload) (txt : String)
    (hu : d.uid ≠ "") (he : d.email ≠ "") (hc : d.content ≠ "")
    (hf : env.findFails = false) (hw : env.chatWriteFails = false)
    (hm : env.userWriteFails = false) (ha : env.aiWriteFails = false)
    (hg : env.genResult = some txt) (htxt : txt ≠ "") :
    ∃ pre um p am e,
      (handleSendMessageV1 env st (some d)).trace =
        pre ++ [Action.msgWrite um, Action.genCall p, Action.msgWrite am,
          Action.emitMsg e] ∧
      um.senderType = "user" ∧ am.senderType = "ai" := by
  have husn : (if d.senderName = "" then "Client" else d.senderName) ≠ "" := by
    split
    · decide
    · assumption
  obtain ⟨c, um, am, st3, hbody, hmsgs, hty, hct, hnm, haty, hatxt, hanm, hlt⟩ :=
    @sendMessageBody_success env st d (if d.senderName = "" then "Client" else d.senderName)
      txt hf hw hm ha hg htxt hu he hc husn
  have hv : ¬(d.uid = "" ∨ d.email = "" ∨ d.content = "") := by simp [hu, he, hc]
  unfold handleSendMessageV1
  simp only [if_neg hv, hbody]
  exact ⟨[Action.findChat d.uid, Action.chatWrite c], um, _, am, _, rfl, hty, haty⟩

theorem c9_pipeline_order_witness :
    ∃ pre um p am e,
      (handleSendMessageV1
        { sysPrompt := "SP", findFails := false, chatWriteFails := false,
          userWriteFails := false, aiWriteFails := false, genResult := some "Answer" }
        emptyStore
        (some { uid := "u9", email := "a@b.com", content := "Ask", senderName := "Cara" })).trace =
        pre ++ [Action.msgWrite um, Action.genCall p, Action.msgWrite am,
          Action.emitMsg e] ∧
      um.senderType = "user" ∧ am.senderType = "ai" :=
  c9_pipeline_order _ emptyStore _ "Answer"
    (by decide) (by decide) (by decide) rfl rfl rfl rfl rfl (by decide)

/-- Claim C10: every reply a validated event produces is either the
fallback, carrying senderName System Error and an id of the form
temp_error_ plus the current clock which is never a persisted document id,
or the success reply, carrying the fixed assistant name and the id of the
persisted assistant Message; the two display names differ, so the two kinds
are always distinguishable. -/
theorem c10_fallback_identity (env : Env) (st : Store) (d : Payload)
    (hu : d.uid ≠ "") (he : d.email ≠ "") (hc : d.content ≠ "") :
    ∃ e, emissionsOf (handleSendMessageV1 env st (some d)).trace = [e] ∧
      "System Error" ≠ ASSISTANT_NAME ∧
      ((e.senderName = "System Error" ∧ e.senderType = "ai" ∧
          (∃ t, e.id = "temp_error_" ++ Nat.repr t ∧ e.timestamp = t) ∧
          ∀ n : Nat, e.id ≠ Nat.repr n) ∨
       (e.senderName = ASSISTANT_NAME ∧
          ∃ am ∈ (handleSendMessageV1 env st (some d)).store.messages,
            am.senderType = "ai" ∧ e.id = Nat.repr am.mid)) := by
  have hv : ¬(d.uid = "" ∨ d.email = "" ∨ d.content = "") := by simp [hu, he, hc]
  unfold handleSendMessageV1
  rcases sendMessageBody_cases env st d
      (if d.senderName = "" then "Client" else d.senderName) with
    ⟨st', tr, hbody, hem⟩ | ⟨st', tr, am, hbody, hem, hmem, hty, hnm⟩
  · simp only [if_neg hv, hbody]
    refine ⟨{ id := "temp_error_" ++ Nat.repr st'.clock, content := FALLBACK_CONTENT,
              senderType := "ai", senderName := "System Error", timestamp := st'.clock },
            ?_, by decide, Or.inl ⟨rfl, rfl, ⟨st'.clock, rfl, rfl⟩, ?_⟩⟩
    · rw [emissionsOf_append, hem]
      rfl
    · intro n hEq
      exact temp_error_ne_repr st'.clock n hEq
  · simp only [if_neg hv, hbody]
    exact ⟨_, hem, by decide, Or.inr ⟨hnm, am, hmem, hty, rfl⟩⟩

theorem c10_fallback_identity_witness :
    ∃ e, emissionsOf (handleSendMessageV1
        { sysPrompt := "SP", findFails := true, chatWriteFails := false,
          userWriteFails := false, aiWriteFails := false, genResult := some "Answer" }
        emptyStore
        (some { uid := "u10", email := "a@b.com", content := "Ask", senderName := "" })).trace
      = [e] ∧
      "System Error" ≠ ASSISTANT_NAME ∧
      ((e.senderName = "System Error" ∧ e.senderType = "ai" ∧
          (∃ t, e.id = "temp_error_" ++ Nat.repr t ∧ e.timestamp = t) ∧
          ∀ n : Nat, e.id ≠ Nat.repr n) ∨
       (e.senderName = ASSISTANT_NAME ∧
          ∃ am ∈ (handleSendMessageV1
            { sysPrompt := "SP", findFails := true, chatWriteFails := false,
              userWriteFails := false, aiWriteFails := false, genResult := some "Answer" }
            emptyStore
            (some { uid := "u10", email := "a@b.com", content := "Ask", senderName := "" })).store.messages,
            am.senderType = "ai" ∧ e.id = Nat.repr am.mid)) :=
  c10_fallback_identity _ emptyStore _ (by decide) (by decide) (by decide)

/-- Helper for claim C6: every emission either handler revision can produce
carries senderType ai (the success reply copies the persisted assistant
Message, the fallback is emitted with the literal ai). -/
theorem emission_senderType_ai (env : Env) (st : Store) (data? : Option Payload)
    (e : Emission)
    (h : e ∈ emissionsOf (handleSendMessageV1 env st data?).trace ∨
         e ∈ emissionsOf (handleSendMessageV2 env st data?).trace) :
    e.senderType = "ai" := by
  rcases h with h | h
  · cases data? with
    | none => simp [handleSendMessageV1, emissionsOf] at h
    | some d =>
      unfold handleSendMessageV1 at h
      by_cases hv : d.uid = "" ∨ d.email = "" ∨ d.content = ""
      · simp only [if_pos hv] at h
        simp [emissionsOf] at h
      · rcases sendMessageBody_cases env st d
            (if d.senderName = "" then "Client" else d.senderName) with
          ⟨st', tr, hbody, hem⟩ | ⟨st', tr, am, hbody, hem, hmem, hty, hnm⟩
        · simp only [if_neg hv, hbody] at h
          rw [emissionsOf_append, hem] at h
          simp [emissionsOf] at h
          rw [h]
        · simp only [if_neg hv, hbody] at h
          rw [hem] at h
          simp at h
          rw [h]
          exact hty
  · cases data? with
    | none => simp [handleSendMessageV2, emissionsOf] at h
    | some d =>
      unfold handleSendMessageV2 at h
      by_cases hv : d.uid = "" ∨ d.email = "" ∨ d.content = ""
      · simp only [if_pos hv] at h
        simp [emissionsOf] at h
      · rcases sendMessageBody_cases env st d d.senderName with
          ⟨st', tr, hbody, hem⟩ | ⟨st', tr, am, hbody, hem, hmem, hty, hnm⟩
        · simp only [if_neg hv, hbody] at h
          rw [hem] at h
          simp at h
        · simp only [if_neg hv, hbody] at h
          rw [hem] at h
          simp at h
          rw [h]
          exact hty

/-- Claim C6 (amended: the enum the code stores and emits is user, ai,
human_agent; the spec name assistant corresponds to the literal ai): every
outbound receive_message event of either handler revision has a senderType
among the enum values, and it is in fact always ai. -/
theorem c6_senderType_enum (env : Env) (st : Store) (data? : Option Payload)
    (e : Emission)
    (h : e ∈ emissionsOf (handleSendMessageV1 env st data?).trace ∨
         e ∈ emissionsOf (handleSendMessageV2 env st data?).trace) :
    e.senderType = "user" ∨ e.senderType = "ai" ∨ e.senderType = "human_agent" :=
  Or.inr (Or.inl (emission_senderType_ai env st data? e h))

theorem c6_senderType_enum_witness :
    ({ id := "2", content := "Hello!", senderType := "ai",
       senderName := "K\x27artz Assistant", timestamp := 2 } : Emission).senderType = "user" ∨
    ({ id := "2", content := "Hello!", senderType := "ai",
       senderName := "K\x27artz Assistant", timestamp := 2 } : Emission).senderType = "ai" ∨
    ({ id := "2", content := "Hello!", senderType := "ai",
       senderName := "K\x27artz Assistant", timestamp := 2 } : Emission).senderType = "human_agent" :=
  c6_senderType_enum
    { sysPrompt := "SP", findFails := false, chatWriteFails := false,
      userWriteFails := false, aiWriteFails := false, genResult := some "Hello!" }
    emptyStore
    (some { uid := "u6", email := "g@h.com", content := "Hey", senderName := "Ana" })
    { id := "2", content := "Hello!", senderType := "ai",
      senderName := "K\x27artz Assistant", timestamp := 2 }
    (Or.inl (by decide))

/-- Claim C6 as frozen is false of the code: a successful exchange emits a
receive_message whose senderType is the literal ai, which is none of user,
assistant, human_agent. -/
theorem c6_senderType_counterexample :
    ∃ e ∈ emissionsOf (handleSendMessageV1
      { sysPrompt := "SP", findFails := false, chatWriteFails := false,
        userWriteFails := false, aiWriteFails := false, genResult := some "Hello!" }
      emptyStore
      (some { uid := "u6", email := "g@h.com", content := "Hey", senderName := "Ana" })).trace,
      ¬(e.senderType = "user" ∨ e.senderType = "assistant" ∨ e.senderType = "human_agent") := by
  decide

/-- Claim C1 (the second handler revision contradicts it, against its own
comment that the block is unchanged from the previous revision): for the
same validated event whose generation call fails, the first revision emits
exactly the complete fixed fallback reply and lets no fault escape, while
the second revision, whose catch block only logs, emits no reply at all
(though it also lets no fault escape). -/
theorem c1_failure_boundary_eval :
    emissionsOf (handleSendMessageV1
      { sysPrompt := "SP", findFails := false, chatWriteFails := false,
        userWriteFails := false, aiWriteFails := false, genResult := none }
      emptyStore
      (some { uid := "u1", email := "a@b.com", content := "Help", senderName := "Ana" })).trace
      = [{ id := "temp_error_2", content := FALLBACK_CONTENT, senderType := "ai",
           senderName := "System Error", timestamp := 2 }] ∧
    (handleSendMessageV1
      { sysPrompt := "SP", findFails := false, chatWriteFails := false,
        userWriteFails := false, aiWriteFails := false, genResult := none }
      emptyStore
      (some { uid := "u1", email := "a@b.com", content := "Help", senderName := "Ana" })).crashed
      = false ∧
    emissionsOf (handleSendMessageV2
      { sysPrompt := "SP", findFails := false, chatWriteFails := false,
        userWriteFails := false, aiWriteFails := false, genResult := none }
      emptyStore
      (some { uid := "u1", email := "a@b.com", content := "Help", senderName := "Ana" })).trace
      = [] ∧
    (handleSendMessageV2
      { sysPrompt := "SP", findFails := false, chatWriteFails := false,
        userWriteFails := false, aiWriteFails := false, genResult := none }
      emptyStore
      (some { uid := "u1", email := "a@b.com", content := "Help", senderName := "Ana" })).crashed
      = false := by
  decide

/-- Claim C7 (the second handler revision contradicts its exactly-one-reply
part): on a validated event the first revision performs two message writes
and one emission on success, one message write and one emission on
generation failure; the second revision performs one message write but zero
emissions on the same failing event. -/
theorem c7_side_effects_eval :
    (msgWritesOf (handleSendMessageV1
      { sysPrompt := "SP", findFails := false, chatWriteFails := false,
        userWriteFails := false, aiWriteFails := false, genResult := some "Reply" }
      emptyStore
      (some { uid := "u7", email := "c@d.com", content := "Question", senderName := "Dana" })).trace).length
      = 2 ∧
    (emissionsOf (handleSendMessageV1
      { sysPrompt := "SP", findFails := false, chatWriteFails := false,
        userWriteFails := false, aiWriteFails := false, genResult := some "Reply" }
      emptyStore
      (some { uid := "u7", email := "c@d.com", content := "Question", senderName := "Dana" })).trace).length
      = 1 ∧
    (msgWritesOf (handleSendMessageV1
      { sysPrompt := "SP", findFails := false, chatWriteFails := false,
        userWriteFails := false, aiWriteFails := false, genResult := none }
      emptyStore
      (some { uid := "u7", email := "c@d.com", content := "Question", senderName := "Dana" })).trace).length
      = 1 ∧
    (emissionsOf (handleSendMessageV1
      { sysPrompt := "SP", findFails := false, chatWriteFails := false,
        userWriteFails := false, aiWriteFails := false, genResult := none }
      emptyStore
      (some { uid := "u7", email := "c@d.com", content := "Question", senderName := "Dana" })).trace).length
      = 1 ∧
    (msgWritesOf (handleSendMessageV2
      { sysPrompt := "SP", findFails := false, chatWriteFails := false,
        userWriteFails := false, aiWriteFails := false, genResult := none }
      emptyStore
      (some { uid := "u7", email := "c@d.com", content := "Question", senderName := "Dana" })).trace).length
      = 1 ∧
    (emissionsOf (handleSendMessageV2
      { sysPrompt := "SP", findFails := false, chatWriteFails := false,
        userWriteFails := false, aiWriteFails := false, genResult := none }
      emptyStore
      (some { uid := "u7", email := "c@d.com", content := "Question", senderName := "Dana" })).trace).length
      = 0 := by
  decide

/-- Claim C8 (the second handler revision contradicts it): on a validated
event that omits senderName, the first revision persists the user Message
with the default display name Client and completes the exchange, while the
second revision passes the missing name through, the required-field
validation rejects the user-message write, and the event ends with no
persisted message and no reply. -/
theorem c8_default_name_eval :
    (handleSendMessageV1
      { sysPrompt := "SP", findFails := false, chatWriteFails := false,
        userWriteFails := false, aiWriteFails := false, genResult := some "Reply" }
      emptyStore
      (some { uid := "u8", email := "e@f.com", content := "Hi", senderName := "" })).store.messages.map
        Message.senderName = ["Client", "K\x27artz Assistant"] ∧
    (emissionsOf (handleSendMessageV1
      { sysPrompt := "SP", findFails := false, chatWriteFails := false,
        userWriteFails := false, aiWriteFails := false, genResult := some "Reply" }
      emptyStore
      (some { uid := "u8", email := "e@f.com", content := "Hi", senderName := "" })).trace).length
      = 1 ∧
    (handleSendMessageV2
      { sysPrompt := "SP", findFails := false, chatWriteFails := false,
        userWriteFails := false, aiWriteFails := false, genResult := some "Reply" }
      emptyStore
      (some { uid := "u8", email := "e@f.com", content := "Hi", senderName := "" })).store.messages
      = [] ∧
    emissionsOf (handleSendMessageV2
      { sysPrompt := "SP", findFails := false, chatWriteFails := false,
        userWriteFails := false, aiWriteFails := false, genResult := some "Reply" }
      emptyStore
      (some { uid := "u8", email := "e@f.com", content := "Hi", senderName := "" })).trace
      = [] ∧
    (handleSendMessageV2
      { sysPrompt := "SP", findFails := false, chatWriteFails := false,
        userWriteFails := false, aiWriteFails := false, genResult := some "Reply" }
      emptyStore
      (some { uid := "u8", email := "e@f.com", content := "Hi", senderName := "" })).crashed
      = false := by
  decide

end KartzBackend
